import Mathlib

/-!
Shallow embedding of the Timeline Synchronization and Dual-Buffer Playback
Engine implemented in `src/ui/src/components/VideoPreview.jsx`.

Timeline times and media timecodes are modelled as rationals; the two
`<video>` buffer slots and the hidden mutable refs (`activePlayerRef`,
`preloadedClipIndexRef`) become an explicit `EngineState`.  Every media
operation the engine issues (seek, load, play, pause, swap, the cold-path
direct load, the audio seek and the scheduling of the next tick) is
recorded as an event in an output list, so that theorems can speak about
which operations a code path performs.
-/

namespace SculptorPreview

/-- Label of one of the two playback buffer slots (players A and B). -/
inductive PLabel where
  | A : PLabel
  | B : PLabel
deriving DecidableEq, Repr

/-- The opposite slot, as computed by `switchPlayers` in the source. -/
def PLabel.flip : PLabel → PLabel
  | PLabel.A => PLabel.B
  | PLabel.B => PLabel.A

/-- Observable state of one `<video>` element used as a buffer slot:
its bound source URL, its playback position, and whether it is paused. -/
structure PlayerState where
  src : Option String
  currentTime : ℚ
  paused : Bool
deriving DecidableEq, Repr

/-- Raw clip entry of the fetched edit plan (`editData.plan`), before
parsing: `scene_id` may be null. -/
structure RawClip where
  start : ℚ
  endTime : ℚ
  duration : ℚ
  phrase : String
  scene_id : Option Nat
deriving DecidableEq, Repr

/-- Parsed clip as produced by `loadData` (`parsedClips`): the entry of
the raw plan together with its assigned index. -/
structure Clip where
  index : Nat
  start : ℚ
  endTime : ℚ
  duration : ℚ
  phrase : String
  sceneId : Option Nat
deriving DecidableEq, Repr

/-- Parsed scene entry of the scene index (`parsedSceneMap` values). -/
structure Scene where
  videoIndex : Nat
  startTime : ℚ
  endTime : ℚ
  duration : ℚ
  videoUrl : String
deriving DecidableEq, Repr

/-- The scene map is an association from scene id to `Scene`. -/
def SceneMap : Type := List (Nat × Scene)

/-- Lookup `sceneMap[clip.sceneId]`: a null id or an id absent from the
map resolves to nothing. -/
def lookupScene (sceneMap : SceneMap) : Option Nat → Option Scene
  | none => none
  | some i => (List.find? (fun p => p.1 == i) sceneMap).map (fun p => p.2)

/-- Clip parsing of `loadData`: filter the raw plan to the entries whose
`scene_id` is non-null, then map each remaining entry, with its position
in the filtered list, to a `Clip`.  `parseClipsAux i l` is the indexed
map starting at index `i`. -/
def parseClipsAux : Nat → List RawClip → List Clip
  | _, [] => []
  | i, c :: rest =>
      { index := i, start := c.start, endTime := c.endTime,
        duration := c.duration, phrase := c.phrase,
        sceneId := c.scene_id } :: parseClipsAux (i + 1) rest

/-- `parsedClips` of `loadData`: `editData.plan.filter(scene_id !== null)
.map((clip, index) => ...)`. -/
def parseClips (raw : List RawClip) : List Clip :=
  parseClipsAux 0 (List.filter (fun c => c.scene_id.isSome) raw)

/-- First index `i` with `t >= clips[i].start && t < clips[i].end`, as
computed by `clips.findIndex` in `tick` (the source encodes the missing
index as `-1`; here it is `none`). -/
def findClipIndex (clips : List Clip) (t : ℚ) : Option Nat :=
  match clips with
  | [] => none
  | c :: rest =>
      if c.start ≤ t ∧ t < c.endTime then some 0
      else (findClipIndex rest t).map (fun i => i + 1)

/-- Clip lookup by timeline time: the first matching clip together with
its index, `none` when no clip interval contains `t`. -/
def lookupClip (clips : List Clip) (t : ℚ) : Option (Clip × Nat) :=
  (findClipIndex clips t).bind fun i => (clips[i]?).map fun c => (c, i)

/-- `t` lies inside the half-open interval of clip `c`. -/
def clipContains (c : Clip) (t : ℚ) : Prop :=
  c.start ≤ t ∧ t < c.endTime

/-- The clip list is sorted ascending by `start`. -/
def SortedByStart (clips : List Clip) : Prop :=
  clips.Pairwise (fun a b => a.start ≤ b.start)

/-- The clip intervals are non-overlapping: every earlier clip ends no
later than any later clip starts. -/
def NonOverlapping (clips : List Clip) : Prop :=
  clips.Pairwise (fun a b => a.endTime ≤ b.start)

/-- `clips[clips.length - 1]?.end || 0` — the end of the last clip, `0`
for an empty timeline. -/
def lastEnd (clips : List Clip) : ℚ :=
  ((clips.getLast?).map (fun c => c.endTime)).getD 0

/-- Engine state: the two buffer slots, the active/standby designation
(`activePlayerRef`), the preloaded-clip marker (`preloadedClipIndexRef`,
initialised to `-1`), the tracked clip index (`currentClipIndex`), the
clock (`currentTime`) and the playing flag (`isPlaying`). -/
structure EngineState where
  playerA : PlayerState
  playerB : PlayerState
  activePlayer : PLabel
  preloadedClipIndex : Int
  currentClipIndex : Nat
  currentTime : ℚ
  isPlaying : Bool
deriving DecidableEq, Repr

/-- Read a slot by label. -/
def getPlayer (s : EngineState) : PLabel → PlayerState
  | PLabel.A => s.playerA
  | PLabel.B => s.playerB

/-- Write a slot by label. -/
def setPlayer (s : EngineState) (l : PLabel) (p : PlayerState) : EngineState :=
  match l with
  | PLabel.A => { s with playerA := p }
  | PLabel.B => { s with playerB := p }

/-- `getActivePlayer()` of the source. -/
def getActivePlayer (s : EngineState) : PlayerState :=
  getPlayer s s.activePlayer

/-- Media operations issued by the engine, recorded as events:
`setSrc`/`seek`/`load` are the preload path of `preloadClip`,
`directLoad` is the cold-path source-and-position assignment of
`switchToClip`, `swap` is `switchPlayers()`, `audioSeek` is an
assignment to the narration clock, `scheduleTick` is
`requestAnimationFrame(tick)`. -/
inductive Ev where
  | setSrc : PLabel → String → Ev
  | seek : PLabel → ℚ → Ev
  | load : PLabel → Ev
  | play : PLabel → Ev
  | pause : PLabel → Ev
  | swap : Ev
  | directLoad : PLabel → String → ℚ → Ev
  | audioSeek : ℚ → Ev
  | scheduleTick : Ev
deriving DecidableEq, Repr

/-- `preloadClip(clipIndex, targetPlayer)` of the source: guard the index
range, resolve the scene (logging and returning untouched state on
failure), pick the target slot (the standby slot when no explicit target
is given), bind the slot to the scene URL if it differs, seek it to
`scene.startTime`, issue a load, and — only when no explicit target was
given — record the preloaded-clip marker. -/
def preloadClip (clips : List Clip) (sceneMap : SceneMap) (s : EngineState)
    (clipIndex : Int) (target : Option PLabel) : EngineState × List Ev :=
  if clipIndex < 0 ∨ (clips.length : Int) ≤ clipIndex then (s, [])
  else
    match clips[clipIndex.toNat]? with
    | none => (s, [])
    | some clip =>
    match lookupScene sceneMap clip.sceneId with
    | none => (s, [])
    | some scene =>
        let lbl := target.getD s.activePlayer.flip
        let p := getPlayer s lbl
        let srcEvs := if p.src = some scene.videoUrl then ([] : List Ev)
                      else [Ev.setSrc lbl scene.videoUrl]
        let s1 := setPlayer s lbl
          { p with src := some scene.videoUrl, currentTime := scene.startTime }
        let s2 := if target.isNone
                  then { s1 with preloadedClipIndex := clipIndex } else s1
        (s2, srcEvs ++ [Ev.seek lbl scene.startTime, Ev.load lbl])

/-- `switchToClip(clipIndex)` of the source: guard the index range,
resolve the scene (returning untouched state on failure); on the warm
path (`preloadedClipIndexRef === clipIndex`) pause the active slot, swap
the designation and, if playing, start the new active slot; on the cold
path compute `offset = max(0, currentTime - clip.start)` and load the
active slot directly at `scene.startTime + offset`, starting it if
playing.  Either way record the new tracked clip index and preload the
next clip when one exists. -/
def switchToClip (clips : List Clip) (sceneMap : SceneMap) (s : EngineState)
    (clipIndex : Int) : EngineState × List Ev :=
  if clipIndex < 0 ∨ (clips.length : Int) ≤ clipIndex then (s, [])
  else
    match clips[clipIndex.toNat]? with
    | none => (s, [])
    | some clip =>
    match lookupScene sceneMap clip.sceneId with
    | none => (s, [])
    | some scene =>
        let step :=
          if s.preloadedClipIndex = clipIndex then
            let oldLbl := s.activePlayer
            let sPaused := setPlayer s oldLbl
              { getPlayer s oldLbl with paused := true }
            let sSwapped := { sPaused with activePlayer := oldLbl.flip }
            let newLbl := oldLbl.flip
            if s.isPlaying then
              (setPlayer sSwapped newLbl
                 { getPlayer sSwapped newLbl with paused := false },
               [Ev.pause oldLbl, Ev.swap, Ev.play newLbl])
            else
              (sSwapped, [Ev.pause oldLbl, Ev.swap])
          else
            let lbl := s.activePlayer
            let clipOffset := max 0 (s.currentTime - clip.start)
            let videoTime := scene.startTime + clipOffset
            let p := getPlayer s lbl
            let sLoaded := setPlayer s lbl
              { p with src := some scene.videoUrl, currentTime := videoTime,
                       paused := if s.isPlaying then false else p.paused }
            (sLoaded,
             Ev.directLoad lbl scene.videoUrl videoTime ::
               (if s.isPlaying then [Ev.play lbl] else []))
        let sTracked := { step.1 with currentClipIndex := clipIndex.toNat }
        if clipIndex + 1 < (clips.length : Int) then
          let pre := preloadClip clips sceneMap sTracked (clipIndex + 1) none
          (pre.1, step.2 ++ pre.2)
        else (sTracked, step.2)

/-- Drift threshold of the tick loop (`drift > 0.1`). -/
def driftThreshold : ℚ := 1 / 10

/-- The drift-correction block of `tick` (the `// Sync active player`
section): when the current clip and its scene resolve, compute
`target = scene.startTime + (timelineTime - clip.start)` and force-seek
the active slot there exactly when the absolute drift exceeds the
threshold; no pause is issued. -/
def driftStep (clips : List Clip) (sceneMap : SceneMap) (s : EngineState)
    (clipIndex : Nat) (timelineTime : ℚ) : EngineState × List Ev :=
  match clips[clipIndex]? with
  | none => (s, [])
  | some clip =>
      match lookupScene sceneMap clip.sceneId with
      | none => (s, [])
      | some scene =>
          let targetVideoTime := scene.startTime + (timelineTime - clip.start)
          let drift := |(getActivePlayer s).currentTime - targetVideoTime|
          if driftThreshold < drift then
            (setPlayer s s.activePlayer
               { getActivePlayer s with currentTime := targetVideoTime },
             [Ev.seek s.activePlayer targetVideoTime])
          else (s, [])

/-- One iteration of `tick`, driven by the narration clock value
`timelineTime` read from the audio element: record the clock, look up
the current clip; on `none` either finish playback (at or beyond the
last clip end: clear the playing flag, reset clock, audio position and
tracked index to zero, schedule nothing) or keep ticking through the
gap; on a hit, switch clips when the index changed, run drift
correction, and schedule the next tick. -/
def tick (clips : List Clip) (sceneMap : SceneMap) (s : EngineState)
    (timelineTime : ℚ) : EngineState × List Ev :=
  let s1 := { s with currentTime := timelineTime }
  match findClipIndex clips timelineTime with
  | none =>
      if lastEnd clips ≤ timelineTime then
        ({ s1 with isPlaying := false, currentTime := 0, currentClipIndex := 0 },
         [Ev.audioSeek 0])
      else (s1, [Ev.scheduleTick])
  | some ci =>
      let step :=
        if ci ≠ s1.currentClipIndex
        then switchToClip clips sceneMap s1 (ci : Int)
        else (s1, [])
      let drifted := driftStep clips sceneMap step.1 ci timelineTime
      (drifted.1, step.2 ++ drifted.2 ++ [Ev.scheduleTick])

/-! ### Clip lookup (claim C1) -/

/-- A found index is within bounds. -/
theorem findClipIndex_lt_length {clips : List Clip} {t : ℚ} {i : Nat}
    (h : findClipIndex clips t = some i) : i < clips.length := by
  induction clips generalizing i with
  | nil => simp [findClipIndex] at h
  | cons c rest ih =>
      by_cases hc : c.start ≤ t ∧ t < c.endTime
      · simp only [findClipIndex, if_pos hc, Option.some.injEq] at h
        subst h
        simp
      · simp only [findClipIndex, if_neg hc, Option.map_eq_some'] at h
        obtain ⟨j, hj, rfl⟩ := h
        have := ih hj
        simp only [List.length_cons]
        omega

/-- `findClipIndex` misses exactly when no clip interval contains `t`. -/
theorem findClipIndex_eq_none_iff (clips : List Clip) (t : ℚ) :
    findClipIndex clips t = none ↔ ∀ c ∈ clips, ¬ clipContains c t := by
  induction clips with
  | nil => simp [findClipIndex]
  | cons c rest ih =>
      by_cases hc : c.start ≤ t ∧ t < c.endTime
      · constructor
        · intro h
          simp [findClipIndex, if_pos hc] at h
        · intro h
          exact absurd hc (h c (List.mem_cons_self c rest))
      · rw [show findClipIndex (c :: rest) t =
              (findClipIndex rest t).map (fun i => i + 1) from by
            simp [findClipIndex, if_neg hc]]
        rw [Option.map_eq_none', ih, List.forall_mem_cons]
        simp [clipContains, hc]

/-- Under non-overlap, any clip whose interval contains `t` is the one
found, at its own index. -/
theorem findClipIndex_eq_of_contains {clips : List Clip} {t : ℚ}
    (hno : NonOverlapping clips) {i : Nat} {c : Clip}
    (hi : clips[i]? = some c) (hct : clipContains c t) :
    findClipIndex clips t = some i := by
  induction clips generalizing i with
  | nil => simp at hi
  | cons c0 rest ih =>
      rw [NonOverlapping, List.pairwise_cons] at hno
      by_cases hc : c0.start ≤ t ∧ t < c0.endTime
      · cases i with
        | zero =>
            simp at hi
            subst hi
            simp [findClipIndex, hc]
        | succ j =>
            rw [List.getElem?_cons_succ] at hi
            have hmem : c ∈ rest := List.getElem?_mem hi
            have h1 : c0.endTime ≤ c.start := hno.1 c hmem
            exact absurd (lt_of_lt_of_le hc.2 (le_trans h1 hct.1)) (lt_irrefl t)
      · cases i with
        | zero =>
            simp at hi
            subst hi
            exact absurd ⟨hct.1, hct.2⟩ hc
        | succ j =>
            rw [List.getElem?_cons_succ] at hi
            have := ih hno.2 hi
            simp [findClipIndex, hc, this]

/-- Claim C1: for every timeline time `t` and every sorted,
non-overlapping clip list, `lookupClip` returns the unique clip whose
interval satisfies `start ≤ t < end` (together with its index), and
returns `none` exactly when `t` falls in a gap between clips or beyond
the last clip's end (no clip interval contains `t`). -/
theorem lookupClip_unique_or_none (clips : List Clip) (t : ℚ)
    (hs : SortedByStart clips) (hno : NonOverlapping clips) :
    (∀ (i : Nat) (c : Clip), clips[i]? = some c → clipContains c t →
        lookupClip clips t = some (c, i)) ∧
    (lookupClip clips t = none ↔ ∀ c ∈ clips, ¬ clipContains c t) := by
  constructor
  · intro i c hi hct
    have hfind := findClipIndex_eq_of_contains hno hi hct
    simp [lookupClip, hfind, hi]
  · constructor
    · intro h
      rw [← findClipIndex_eq_none_iff clips t]
      cases hf : findClipIndex clips t with
      | none => rfl
      | some i =>
          exfalso
          have hlt := findClipIndex_lt_length hf
          simp [lookupClip, hf, List.getElem?_eq_getElem hlt] at h
    · intro h
      have hf := (findClipIndex_eq_none_iff clips t).mpr h
      simp [lookupClip, hf]

/-- Witness for C1: a concrete sorted, non-overlapping two-clip timeline
with a gap, evaluated at a time inside the second clip. -/
theorem lookupClip_unique_or_none_witness :
    lookupClip
      [{ index := 0, start := 0, endTime := 5, duration := 5,
         phrase := "a", sceneId := some 1 },
       { index := 1, start := 6, endTime := 10, duration := 4,
         phrase := "b", sceneId := some 2 }] 7 =
      some ({ index := 1, start := 6, endTime := 10, duration := 4,
              phrase := "b", sceneId := some 2 }, 1) :=
  (lookupClip_unique_or_none _ 7 (by unfold SortedByStart; decide)
    (by unfold NonOverlapping; decide)).1 1 _ (by rfl)
    (by constructor <;> norm_num)

/-! ### Concrete fixtures (scenario A of the specification) -/

/-- Scene 1: source 0, timecodes 10–15. -/
def sceneOne : Scene :=
  { videoIndex := 0, startTime := 10, endTime := 15, duration := 5,
    videoUrl := "video0" }

/-- Scene 2: source 1, timecodes 40–48. -/
def sceneTwo : Scene :=
  { videoIndex := 1, startTime := 40, endTime := 48, duration := 8,
    videoUrl := "video1" }

/-- Clip 0 of scenario A: timeline 0–5, scene 1. -/
def clipOne : Clip :=
  { index := 0, start := 0, endTime := 5, duration := 5, phrase := "p0",
    sceneId := some 1 }

/-- Clip 1 of scenario A: timeline 5–12, scene 2. -/
def clipTwo : Clip :=
  { index := 1, start := 5, endTime := 12, duration := 7, phrase := "p1",
    sceneId := some 2 }

/-- The scenario A timeline. -/
def demoClips : List Clip := [clipOne, clipTwo]

/-- The scenario A scene index. -/
def demoScenes : SceneMap := [(1, sceneOne), (2, sceneTwo)]

/-- A freshly mounted buffer slot: unbound, at position 0, paused. -/
def initPlayer : PlayerState := { src := none, currentTime := 0, paused := true }

/-- Initial engine state: player A active, nothing preloaded, playing. -/
def demoState : EngineState :=
  { playerA := initPlayer, playerB := initPlayer, activePlayer := PLabel.A,
    preloadedClipIndex := -1, currentClipIndex := 0, currentTime := 0,
    isPlaying := true }

/-! ### Drift correction (claim C2) -/

/-- Claim C2: on every tick with an active clip (and its scene)
resolved, letting `target = scene.startTime + (clock - clip.start)`, the
drift-correction step force-seeks the active slot to `target` exactly
when `|activeSlot.currentTime - target|` is strictly greater than the
drift threshold; when the absolute difference is at most the threshold
it does nothing, and in either case it issues no pause. -/
theorem driftStep_seeks_iff_drift (clips : List Clip) (sceneMap : SceneMap)
    (s : EngineState) (ci : Nat) (t : ℚ) (clip : Clip) (scene : Scene)
    (hc : clips[ci]? = some clip)
    (hsc : lookupScene sceneMap clip.sceneId = some scene) :
    (driftThreshold <
        |(getActivePlayer s).currentTime - (scene.startTime + (t - clip.start))| →
      driftStep clips sceneMap s ci t =
        (setPlayer s s.activePlayer
           { getActivePlayer s with
             currentTime := scene.startTime + (t - clip.start) },
         [Ev.seek s.activePlayer (scene.startTime + (t - clip.start))])) ∧
    (|(getActivePlayer s).currentTime - (scene.startTime + (t - clip.start))| ≤
        driftThreshold →
      driftStep clips sceneMap s ci t = (s, [])) ∧
    (∀ l, Ev.pause l ∉ (driftStep clips sceneMap s ci t).2) := by
  have hd : driftStep clips sceneMap s ci t =
      if driftThreshold <
          |(getActivePlayer s).currentTime - (scene.startTime + (t - clip.start))|
      then
        (setPlayer s s.activePlayer
           { getActivePlayer s with
             currentTime := scene.startTime + (t - clip.start) },
         [Ev.seek s.activePlayer (scene.startTime + (t - clip.start))])
      else (s, []) := by
    simp [driftStep, hc, hsc]
  refine ⟨?_, ?_, ?_⟩
  · intro h
    rw [hd, if_pos h]
  · intro h
    rw [hd, if_neg (not_lt.mpr h)]
  · intro l
    rw [hd]
    by_cases h : driftThreshold <
        |(getActivePlayer s).currentTime - (scene.startTime + (t - clip.start))|
    · simp [if_pos h]
    · simp [if_neg h]

/-- Witness for C2: in scenario A at clock `1/2`, the active slot sits at
position 0 while the target is `10.5`; the drift exceeds the threshold,
so the step seeks the active slot to the target. -/
theorem driftStep_seeks_iff_drift_witness :
    driftStep demoClips demoScenes demoState 0 (1 / 2) =
      (setPlayer demoState demoState.activePlayer
         { getActivePlayer demoState with
           currentTime := sceneOne.startTime + (1 / 2 - clipOne.start) },
       [Ev.seek demoState.activePlayer
          (sceneOne.startTime + (1 / 2 - clipOne.start))]) :=
  (driftStep_seeks_iff_drift demoClips demoScenes demoState 0 (1 / 2)
      clipOne sceneOne (by rfl) (by rfl)).1 (by
    simp only [demoState, getActivePlayer, getPlayer, initPlayer, sceneOne,
      clipOne, driftThreshold]
    rw [abs_sub_comm]
    norm_num [abs_of_nonneg])

/-! ### Slot algebra helpers -/

/-- Flipping the designation twice is the identity. -/
@[simp] theorem PLabel.flip_flip (l : PLabel) : l.flip.flip = l := by
  cases l <;> rfl

/-- The standby slot differs from the active one. -/
theorem PLabel.flip_ne (l : PLabel) : l.flip ≠ l := by
  cases l <;> simp [PLabel.flip]

@[simp] theorem getPlayer_setPlayer_self (s : EngineState) (l : PLabel)
    (p : PlayerState) : getPlayer (setPlayer s l p) l = p := by
  cases l <;> rfl

theorem getPlayer_setPlayer_ne (s : EngineState) (p : PlayerState)
    {l l' : PLabel} (h : l' ≠ l) :
    getPlayer (setPlayer s l p) l' = getPlayer s l' := by
  cases l <;> cases l' <;> first | rfl | exact absurd rfl h

@[simp] theorem setPlayer_activePlayer (s : EngineState) (l : PLabel)
    (p : PlayerState) : (setPlayer s l p).activePlayer = s.activePlayer := by
  cases l <;> rfl

@[simp] theorem setPlayer_isPlaying (s : EngineState) (l : PLabel)
    (p : PlayerState) : (setPlayer s l p).isPlaying = s.isPlaying := by
  cases l <;> rfl

@[simp] theorem setPlayer_currentClipIndex (s : EngineState) (l : PLabel)
    (p : PlayerState) :
    (setPlayer s l p).currentClipIndex = s.currentClipIndex := by
  cases l <;> rfl

@[simp] theorem setPlayer_currentTime (s : EngineState) (l : PLabel)
    (p : PlayerState) : (setPlayer s l p).currentTime = s.currentTime := by
  cases l <;> rfl

@[simp] theorem setPlayer_preloadedClipIndex (s : EngineState) (l : PLabel)
    (p : PlayerState) :
    (setPlayer s l p).preloadedClipIndex = s.preloadedClipIndex := by
  cases l <;> rfl

@[simp] theorem getPlayer_update_activePlayer (s : EngineState) (a : PLabel)
    (l : PLabel) : getPlayer { s with activePlayer := a } l = getPlayer s l := by
  cases l <;> rfl

@[simp] theorem getPlayer_update_currentClipIndex (s : EngineState) (n : Nat)
    (l : PLabel) :
    getPlayer { s with currentClipIndex := n } l = getPlayer s l := by
  cases l <;> rfl

@[simp] theorem getPlayer_update_preloadedClipIndex (s : EngineState) (n : Int)
    (l : PLabel) :
    getPlayer { s with preloadedClipIndex := n } l = getPlayer s l := by
  cases l <;> rfl

/-! ### End-of-timeline behaviour of the tick (claim C3, corrected) -/

/-- A buffer slot freely running mid-playback. -/
def runningPlayer : PlayerState :=
  { src := some "video0", currentTime := 13, paused := false }

/-- Engine state in the middle of playback: both slots unpaused. -/
def runningState : EngineState :=
  { playerA := runningPlayer, playerB := runningPlayer,
    activePlayer := PLabel.A, preloadedClipIndex := 1, currentClipIndex := 1,
    currentTime := 11, isPlaying := true }

/-- Counterexample to C3 as stated: on the tick at clock 20 of scenario
A (past the last clip end of 12) the engine clears the playing flag, but
it issues no pause to either buffer slot and both slots remain unpaused,
so it does not "stop all buffers". -/
theorem tick_finish_does_not_stop_buffers :
    (tick demoClips demoScenes runningState 20).1.isPlaying = false ∧
    (tick demoClips demoScenes runningState 20).1.playerA.paused = false ∧
    (tick demoClips demoScenes runningState 20).1.playerB.paused = false ∧
    Ev.pause PLabel.A ∉ (tick demoClips demoScenes runningState 20).2 ∧
    Ev.pause PLabel.B ∉ (tick demoClips demoScenes runningState 20).2 := by
  decide

/-- Claim C3, amended: on any tick where clip lookup returns `none` and
the clock is at or beyond the last clip's end, the engine clears the
playing flag (leaving the `Playing` state), resets the clock and the
tracked clip index to zero and seeks the narration audio back to zero;
it does not stop or pause the buffer slots, which are left exactly as
they were. -/
theorem tick_finish_amended (clips : List Clip) (sceneMap : SceneMap)
    (s : EngineState) (t : ℚ)
    (hfind : findClipIndex clips t = none) (hend : lastEnd clips ≤ t) :
    tick clips sceneMap s t =
      ({ s with currentTime := 0, isPlaying := false, currentClipIndex := 0 },
       [Ev.audioSeek 0]) := by
  cases s
  simp [tick, hfind, hend]

/-- Witness for the amended C3: scenario A at clock 20. -/
theorem tick_finish_amended_witness :
    tick demoClips demoScenes runningState 20 =
      ({ runningState with
           currentTime := 0, isPlaying := false, currentClipIndex := 0 },
       [Ev.audioSeek 0]) :=
  tick_finish_amended demoClips demoScenes runningState 20 (by rfl) (by decide)

/-! ### Preload facts shared by the warm-path and idempotence claims -/

/-- `preloadClip` never issues a cold-path direct load. -/
theorem preloadClip_no_directLoad (clips : List Clip) (sceneMap : SceneMap)
    (s : EngineState) (i : Int) (tgt : Option PLabel) (l : PLabel)
    (u : String) (t : ℚ) :
    Ev.directLoad l u t ∉ (preloadClip clips sceneMap s i tgt).2 := by
  simp only [preloadClip]
  split
  · simp
  · split
    · simp
    · split
      · simp
      · split_ifs <;> simp

/-- `preloadClip` leaves the active/standby designation, the paused flag
of both slots, the playing flag and the tracked clip index unchanged. -/
theorem preloadClip_preserves (clips : List Clip) (sceneMap : SceneMap)
    (s : EngineState) (i : Int) (tgt : Option PLabel) :
    ((preloadClip clips sceneMap s i tgt).1.activePlayer = s.activePlayer) ∧
    (∀ l, (getPlayer (preloadClip clips sceneMap s i tgt).1 l).paused =
        (getPlayer s l).paused) ∧
    ((preloadClip clips sceneMap s i tgt).1.isPlaying = s.isPlaying) ∧
    ((preloadClip clips sceneMap s i tgt).1.currentClipIndex =
        s.currentClipIndex) := by
  simp only [preloadClip]
  split
  · simp
  · split
    · simp
    · split
      · simp
      · split_ifs <;>
        · refine ⟨by simp, fun l => ?_, by simp, by simp⟩
          cases hG : tgt.getD s.activePlayer.flip <;> cases l <;>
            simp [getPlayer, setPlayer]

/-! ### Warm activation path (claim C4) -/

/-- Claim C4: if `preload(i)` has completed, so that the standby slot is
marked with `preloadedClipIndex = i`, then activating clip `i` while
playing takes the warm path: it pauses the current active slot, swaps
the active/standby designation, starts the newly active slot, and
issues no cold-path direct load into either slot. -/
theorem switchToClip_warm_path (clips : List Clip) (sceneMap : SceneMap)
    (s : EngineState) (i : Nat) (clip : Clip) (scene : Scene)
    (hc : clips[i]? = some clip)
    (hsc : lookupScene sceneMap clip.sceneId = some scene)
    (hp : s.preloadedClipIndex = (i : Int))
    (hplay : s.isPlaying = true) :
    ((switchToClip clips sceneMap s (i : Int)).1.activePlayer =
        s.activePlayer.flip) ∧
    ((getPlayer (switchToClip clips sceneMap s (i : Int)).1
        s.activePlayer).paused = true) ∧
    ((getPlayer (switchToClip clips sceneMap s (i : Int)).1
        s.activePlayer.flip).paused = false) ∧
    (∃ evs, (switchToClip clips sceneMap s (i : Int)).2 =
        Ev.pause s.activePlayer :: Ev.swap ::
          Ev.play s.activePlayer.flip :: evs) ∧
    (∀ (l : PLabel) (u : String) (t : ℚ),
        Ev.directLoad l u t ∉ (switchToClip clips sceneMap s (i : Int)).2) := by
  have hlt : i < clips.length := (List.getElem?_eq_some.mp hc).1
  have hguard : ¬ ((i : Int) < 0 ∨ (clips.length : Int) ≤ (i : Int)) := by
    omega
  have key : clips[((i : Int)).toNat]? = some clip := by
    simpa [Int.toNat_natCast] using hc
  obtain ⟨pA, pB, act, preIdx, cci, ct, ip⟩ := s
  simp only at hp hplay ⊢
  subst hplay
  have hpre := fun st j =>
    preloadClip_preserves clips sceneMap st j none
  have hnodl := fun st j l u t =>
    preloadClip_no_directLoad clips sceneMap st j none l u t
  cases act <;>
  · simp only [switchToClip, if_neg hguard, Int.toNat_natCast, hc, hsc, hp,
      if_pos rfl, PLabel.flip, getPlayer, setPlayer, if_true]
    by_cases hnext : (i : Int) + 1 < (clips.length : Int)
    · simp only [if_pos hnext]
      refine ⟨?_, ?_, ?_, ?_, ?_⟩
      · first
        | trivial
        | exact (hpre _ _).1.trans rfl
      · first
        | trivial
        | exact ((hpre _ _).2.1 PLabel.A).trans rfl
        | exact ((hpre _ _).2.1 PLabel.B).trans rfl
      · first
        | trivial
        | exact ((hpre _ _).2.1 PLabel.A).trans rfl
        | exact ((hpre _ _).2.1 PLabel.B).trans rfl
      · exact ⟨_, rfl⟩
      · intro l u t hmem
        simp at hmem
        exact hnodl _ _ l u t hmem
    · simp only [if_neg hnext]
      refine ⟨?_, ?_, ?_, ?_, ?_⟩ <;>
        first
        | trivial
        | exact ⟨[], rfl⟩
        | (intro l u t hmem; simp at hmem)

/-- Scenario B state: clip 1 has been preloaded into standby slot B
(bound to source 1, seeked to 40), player A active and playing. -/
def warmState : EngineState :=
  { playerA := { src := some "video0", currentTime := 15, paused := false },
    playerB := { src := some "video1", currentTime := 40, paused := true },
    activePlayer := PLabel.A, preloadedClipIndex := 1, currentClipIndex := 0,
    currentTime := 5, isPlaying := true }

/-- Witness for C4: activating preloaded clip 1 of scenario A from
`warmState` swaps the designation to B, pauses A and starts B. -/
theorem switchToClip_warm_path_witness :
    warmState.preloadedClipIndex = (((1 : Nat) : Int)) ∧
    ((switchToClip demoClips demoScenes warmState ((1 : Nat) : Int)).1.activePlayer =
        warmState.activePlayer.flip) ∧
    ((getPlayer (switchToClip demoClips demoScenes warmState ((1 : Nat) : Int)).1
        warmState.activePlayer).paused = true) ∧
    ((getPlayer (switchToClip demoClips demoScenes warmState ((1 : Nat) : Int)).1
        warmState.activePlayer.flip).paused = false) :=
  ⟨rfl,
   (switchToClip_warm_path demoClips demoScenes warmState 1 clipTwo sceneTwo
      rfl rfl rfl rfl).1,
   (switchToClip_warm_path demoClips demoScenes warmState 1 clipTwo sceneTwo
      rfl rfl rfl rfl).2.1,
   (switchToClip_warm_path demoClips demoScenes warmState 1 clipTwo sceneTwo
      rfl rfl rfl rfl).2.2.1⟩

/-! ### Cold activation path (claim C5, corrected) -/

/-- A clip that starts late on the timeline (5–10), scene 1. -/
def clipLate : Clip :=
  { index := 0, start := 5, endTime := 10, duration := 5, phrase := "c",
    sceneId := some 1 }

/-- Timeline holding only the late clip. -/
def lateClips : List Clip := [clipLate]

/-- Scene index holding only scene 1. -/
def lateScenes : SceneMap := [(1, sceneOne)]

/-- Engine state with the clock before the late clip and nothing
preloaded. -/
def coldState : EngineState :=
  { playerA := initPlayer, playerB := initPlayer, activePlayer := PLabel.A,
    preloadedClipIndex := -1, currentClipIndex := 0, currentTime := 0,
    isPlaying := false }

/-- Counterexample to C5 as stated: activating the unpreloaded late clip
(start 5, scene start time 10) at clock 0 loads the active slot at
source time 10, because the cold path clamps the clip-relative offset at
zero, whereas the claimed formula `sourceStartTime + (timelineTime -
clip.start)` gives `10 + (0 - 5) = 5`. -/
theorem switchToClip_cold_clamps_offset :
    (switchToClip lateClips lateScenes coldState 0).2 =
      [Ev.directLoad PLabel.A "video0" 10] ∧
    (10 : ℚ) ≠
      sceneOne.startTime + (coldState.currentTime - clipLate.start) := by
  have hmax : max (0 : ℚ) (coldState.currentTime - clipLate.start) = 0 :=
    max_eq_left (by norm_num [coldState, clipLate])
  constructor
  · simp only [switchToClip, lateClips, lateScenes, coldState, clipLate,
      sceneOne, lookupScene]
    norm_num [hmax, List.find?, getPlayer, setPlayer, coldState, clipLate,
      sceneOne]
  · norm_num [sceneOne, coldState, clipLate]

/-- Claim C5, amended: for every clip `i` not preloaded in the standby
slot, activation takes the cold path and loads the active slot at
source time `scene.startTime + max(0, timelineTime - clip.start)` — the
clip-relative offset clamped below at zero; in particular, when
activated exactly at `timelineTime = clip.start` the selected source
time equals `scene.startTime` (zero clip-relative offset). -/
theorem switchToClip_cold_path (clips : List Clip) (sceneMap : SceneMap)
    (s : EngineState) (i : Nat) (clip : Clip) (scene : Scene)
    (hc : clips[i]? = some clip)
    (hsc : lookupScene sceneMap clip.sceneId = some scene)
    (hp : s.preloadedClipIndex ≠ (i : Int)) :
    (∃ evs, (switchToClip clips sceneMap s (i : Int)).2 =
        Ev.directLoad s.activePlayer scene.videoUrl
          (scene.startTime + max 0 (s.currentTime - clip.start)) :: evs) ∧
    (s.currentTime = clip.start →
      scene.startTime + max 0 (s.currentTime - clip.start) =
        scene.startTime) := by
  have hguard : ¬ ((i : Int) < 0 ∨ (clips.length : Int) ≤ (i : Int)) := by
    have hlt : i < clips.length := (List.getElem?_eq_some.mp hc).1
    omega
  constructor
  · simp only [switchToClip, if_neg hguard, Int.toNat_natCast, hc, hsc,
      if_neg hp]
    by_cases hnext : (i : Int) + 1 < (clips.length : Int)
    · simp only [if_pos hnext]
      exact ⟨_, rfl⟩
    · simp only [if_neg hnext]
      exact ⟨_, rfl⟩
  · intro h
    rw [h]
    simp

/-- Witness for the amended C5: the cold activation above indeed emits a
direct load at the clamped source time. -/
theorem switchToClip_cold_path_witness :
    coldState.preloadedClipIndex ≠ (((0 : Nat) : Int)) ∧
    (∃ evs, (switchToClip lateClips lateScenes coldState ((0 : Nat) : Int)).2 =
        Ev.directLoad coldState.activePlayer sceneOne.videoUrl
          (sceneOne.startTime +
            max 0 (coldState.currentTime - clipLate.start)) :: evs) :=
  ⟨by decide,
   (switchToClip_cold_path lateClips lateScenes coldState 0 clipLate sceneOne
      rfl rfl (by decide)).1⟩

/-! ### Preload idempotence (claim C6, corrected) -/

/-- The engine state after preloading clip 1 of scenario A once. -/
def onceState : EngineState :=
  (preloadClip demoClips demoScenes demoState 1 none).1

/-- Counterexample to C6 as stated: with clip 1 already preloaded (the
standby slot is marked `preloadedClipIndex = 1`), a second `preload(1)`
is not a no-op — it re-issues the seek to the scene start and a load on
the standby slot. -/
theorem preloadClip_second_call_not_noop :
    (preloadClip demoClips demoScenes onceState 1 none).2 =
      [Ev.seek PLabel.B sceneTwo.startTime, Ev.load PLabel.B] ∧
    (preloadClip demoClips demoScenes onceState 1 none).2 ≠ [] := by
  decide

/-- Claim C6, amended: `preload` is idempotent on the buffer state —
calling it twice without an intervening activation leaves the standby
slot binding, its seek position and the preloaded-clip marker identical
to calling it once — although the second call is not a no-op: it
re-issues the same seek and load rather than returning early. -/
theorem preloadClip_idempotent_state (clips : List Clip)
    (sceneMap : SceneMap) (s : EngineState) (i : Int) :
    (preloadClip clips sceneMap
        (preloadClip clips sceneMap s i none).1 i none).1 =
      (preloadClip clips sceneMap s i none).1 := by
  by_cases hg : i < 0 ∨ (clips.length : Int) ≤ i
  · simp [preloadClip, hg]
  · cases hclip : clips[i.toNat]? with
    | none => simp [preloadClip, hg, hclip]
    | some clip =>
        cases hsc : lookupScene sceneMap clip.sceneId with
        | none => simp [preloadClip, hg, hclip, hsc]
        | some scene =>
            obtain ⟨pA, pB, act, preIdx, cci, ct, ip⟩ := s
            cases act <;>
              simp [preloadClip, hg, hclip, hsc, getPlayer, setPlayer,
                PLabel.flip]

/-! ### Timeline building (claim C7, corrected) -/

/-- A raw clip starting late, with a non-null scene id. -/
def rawLate : RawClip :=
  { start := 5, endTime := 10, duration := 5, phrase := "x",
    scene_id := some 1 }

/-- A raw clip starting early, with a non-null scene id. -/
def rawEarly : RawClip :=
  { start := 0, endTime := 5, duration := 5, phrase := "y",
    scene_id := some 2 }

/-- Counterexample to C7 as stated: parsing a raw plan whose entries
arrive out of order keeps them in input order — the built timeline has
starts `[5, 0]` and is not sorted ascending by `start`. -/
theorem parseClips_does_not_sort :
    (parseClips [rawLate, rawEarly]).map (fun c => c.start) =
      [(5 : ℚ), 0] ∧
    ¬ SortedByStart (parseClips [rawLate, rawEarly]) := by
  constructor
  · rfl
  · unfold SortedByStart
    decide

/-- Data carried by a parsed clip besides its assigned index. -/
def clipData (c : Clip) : ℚ × ℚ × ℚ × String × Option Nat :=
  (c.start, c.endTime, c.duration, c.phrase, c.sceneId)

/-- Data carried by a raw clip. -/
def rawClipData (c : RawClip) : ℚ × ℚ × ℚ × String × Option Nat :=
  (c.start, c.endTime, c.duration, c.phrase, c.scene_id)

/-- The indexed map keeps the filtered entries, in order. -/
theorem parseClipsAux_map_data (l : List RawClip) : ∀ n : Nat,
    (parseClipsAux n l).map clipData = l.map rawClipData := by
  induction l with
  | nil => intro n; rfl
  | cons c rest ih =>
      intro n
      simp [parseClipsAux, clipData, rawClipData, ih (n + 1)]

/-- The indexed map assigns consecutive indices from its start value. -/
theorem parseClipsAux_map_index (l : List RawClip) : ∀ n : Nat,
    (parseClipsAux n l).map (fun c => c.index) = List.range' n l.length := by
  induction l with
  | nil => intro n; rfl
  | cons c rest ih =>
      intro n
      simp [parseClipsAux, List.range'_succ, ih (n + 1)]

/-- Claim C7, amended: `parseClips` filters out exactly the raw entries
whose `scene_id` is null (it does not consult the scene index, so
present-but-unresolvable ids are kept), preserves the remaining entries
in input order without sorting by `start`, and assigns each its
position in that order as its index. -/
theorem parseClips_filter_order_index (raw : List RawClip) :
    ((parseClips raw).map clipData =
      (raw.filter (fun c => c.scene_id.isSome)).map rawClipData) ∧
    ((parseClips raw).map (fun c => c.index) =
      List.range (raw.filter (fun c => c.scene_id.isSome)).length) ∧
    (∀ c ∈ parseClips raw, c.sceneId.isSome) := by
  refine ⟨parseClipsAux_map_data _ 0, ?_, ?_⟩
  · rw [List.range_eq_range']
    exact parseClipsAux_map_index _ 0
  · intro c hc
    have hdata := parseClipsAux_map_data
      (raw.filter (fun c => c.scene_id.isSome)) 0
    have hmem : clipData c ∈
        (raw.filter (fun c => c.scene_id.isSome)).map rawClipData := by
      rw [← hdata]
      exact List.mem_map_of_mem clipData hc
    obtain ⟨r, hr, hre⟩ := List.mem_map.mp hmem
    have hrsome : r.scene_id.isSome := (List.mem_filter.mp hr).2
    have : c.sceneId = r.scene_id := by
      have := congrArg (fun p => p.2.2.2.2) hre
      simpa [clipData, rawClipData] using this.symm
    rw [this]
    exact hrsome

/-! ### Unresolved scene on activation (claim C8) -/

/-- Claim C8: activating a clip whose scene id has no entry in the
scene index leaves the whole engine state — in particular the active
buffer's binding, position and activity — unchanged, issues no media
operation, and returns normally. -/
theorem switchToClip_unresolved_scene (clips : List Clip)
    (sceneMap : SceneMap) (s : EngineState) (i : Nat) (clip : Clip)
    (hc : clips[i]? = some clip)
    (hsc : lookupScene sceneMap clip.sceneId = none) :
    switchToClip clips sceneMap s (i : Int) = (s, []) := by
  have hguard : ¬ ((i : Int) < 0 ∨ (clips.length : Int) ≤ (i : Int)) := by
    have hlt : i < clips.length := (List.getElem?_eq_some.mp hc).1
    omega
  simp [switchToClip, if_neg hguard, Int.toNat_natCast, hc, hsc]

/-- A clip referencing a scene id absent from the scene index. -/
def orphanClip : Clip :=
  { index := 0, start := 0, endTime := 5, duration := 5, phrase := "o",
    sceneId := some 99 }

/-- Timeline holding only the orphan clip. -/
def orphanClips : List Clip := [orphanClip]

/-- Witness for C8: activating the orphan clip against scenario A's
scene index changes nothing and issues nothing. -/
theorem switchToClip_unresolved_scene_witness :
    switchToClip orphanClips demoScenes demoState (((0 : Nat) : Int)) =
      (demoState, []) :=
  switchToClip_unresolved_scene orphanClips demoScenes demoState 0
    orphanClip rfl rfl

/-! ### Gap ticks (claim C9) -/

/-- Claim C9: on a tick where clip lookup returns `none` while the
clock is strictly before the last clip's end, the tick only records the
clock — every buffer slot, the designation, the preloaded-clip marker,
the tracked index and the playing flag are untouched — and its only
event is scheduling the next tick. -/
theorem tick_gap_only_schedules (clips : List Clip) (sceneMap : SceneMap)
    (s : EngineState) (t : ℚ)
    (hfind : findClipIndex clips t = none) (hgap : t < lastEnd clips) :
    tick clips sceneMap s t = ({ s with currentTime := t }, [Ev.scheduleTick]) := by
  have hend : ¬ (lastEnd clips ≤ t) := not_le.mpr hgap
  cases s
  simp [tick, hfind, hend]

/-- Clip on timeline 6–10 (leaving a gap after clip 0–5), scene 2. -/
def clipAfterGap : Clip :=
  { index := 1, start := 6, endTime := 10, duration := 4, phrase := "g",
    sceneId := some 2 }

/-- A timeline with a gap between 5 and 6. -/
def gapClips : List Clip := [clipOne, clipAfterGap]

/-- Witness for C9: a tick at clock 5, inside the half-open gap between
the two clips, only records the clock and schedules the next tick. -/
theorem tick_gap_only_schedules_witness :
    tick gapClips demoScenes demoState 5 =
      ({ demoState with currentTime := 5 }, [Ev.scheduleTick]) :=
  tick_gap_only_schedules gapClips demoScenes demoState 5
    (by decide) (by decide)

/-! ### Out-of-range clip indices (claim C10) -/

/-- Claim C10: for every clip index outside `[0, clips.length)`, both
`preloadClip` (with any target) and `switchToClip` return the state
unchanged and issue no media operation. -/
theorem preload_switch_out_of_range (clips : List Clip)
    (sceneMap : SceneMap) (s : EngineState) (j : Int) (tgt : Option PLabel)
    (h : j < 0 ∨ (clips.length : Int) ≤ j) :
    preloadClip clips sceneMap s j tgt = (s, []) ∧
    switchToClip clips sceneMap s j = (s, []) := by
  constructor
  · simp only [preloadClip, if_pos h]
  · simp only [switchToClip, if_pos h]

/-- Witness for C10: index `-1` against the scenario A timeline. -/
theorem preload_switch_out_of_range_witness :
    preloadClip demoClips demoScenes demoState (-1) none =
      (demoState, []) ∧
    switchToClip demoClips demoScenes demoState (-1) = (demoState, []) :=
  preload_switch_out_of_range demoClips demoScenes demoState (-1) none
    (by decide)

end SculptorPreview
